import Mathlib

/-!
Shallow embedding of the campaign performance monitoring core of the
`Inova117/z-amcv2` orchestrator service
(`src/orchestrator/services/campaign_performance_service.py` and
`src/orchestrator/services/nats_service.py`).

Python floats are modelled as rationals (`ℚ`), Python ints as `Int`.
The `datetime` fields (`timestamp`, `date`) carry no logic that the
verified properties depend on and are omitted from the state.
Dictionaries are modelled as association lists with Python-dict update
semantics (overwrite keeps the original insertion position).
-/

namespace ZAMC

/-- Platform enum from `models.CampaignPlatform`. -/
inductive CampaignPlatform where
  | google_ads
  | meta
  | linkedin
  | twitter
  deriving DecidableEq, Repr

/-- Snapshot from `models.CampaignMetrics` (timestamp/date omitted).
Raw counters `impressions`, `clicks`, `conversions` are Python ints;
`spend`, `revenue` and the derived fields are Python floats, modelled
as rationals. All numeric fields default to zero as in the pydantic model. -/
structure CampaignMetrics where
  campaign_id : String
  campaign_name : String
  platform : CampaignPlatform
  impressions : Int := 0
  clicks : Int := 0
  spend : ℚ := 0
  conversions : Int := 0
  revenue : ℚ := 0
  ctr : ℚ := 0
  cpc : ℚ := 0
  cpm : ℚ := 0
  roas : ℚ := 0
  deriving DecidableEq, Repr

/-- Partial update payload handed to `update_campaign_metrics` as the
`metrics_data` dict: each key may be present (`some`) or absent (`none`).
The code reads only the five raw-counter keys; the derived-metric keys can
be present in the dict but are never read, which is why they appear here. -/
structure MetricsData where
  impressions : Option Int := none
  clicks : Option Int := none
  spend : Option ℚ := none
  conversions : Option Int := none
  revenue : Option ℚ := none
  ctr : Option ℚ := none
  cpc : Option ℚ := none
  cpm : Option ℚ := none
  roas : Option ℚ := none
  deriving DecidableEq, Repr

/-- Python `dict` lookup (`d.get(k)` / `k in d`). -/
def dictGet {α : Type} : List (String × α) → String → Option α
  | [], _ => none
  | (k', v) :: rest, k => if k' = k then some v else dictGet rest k

/-- Python `dict` assignment `d[k] = v`: overwrite in place, append if new. -/
def dictSet {α : Type} : List (String × α) → String → α → List (String × α)
  | [], k, v => [(k, v)]
  | (k', v') :: rest, k, v =>
      if k' = k then (k', v) :: rest else (k', v') :: dictSet rest k v

/-- The static threshold configuration built in
`CampaignPerformanceService.__init__` (lines 31-37). -/
def performance_thresholds : List (String × ℚ) :=
  [("roas_low", 2), ("roas_high", 5), ("ctr_low", 1), ("ctr_high", 5), ("cpc_high", 2)]

/-- Events handed to the transport. Constructors mirror the four event
models published by the service; timestamp and event_type omitted. -/
inductive Event where
  | metricsUpdated (project_id campaign_id : String) (metrics : CampaignMetrics)
  | budgetExceeded (project_id campaign_id : String)
      (budget_limit current_spend percentage_exceeded : ℚ)
  | performanceAlert (project_id campaign_id alert_type severity : String)
      (threshold current_value : ℚ)
  | thresholdCrossed (project_id campaign_id metric_name threshold_type : String)
      (threshold_value current_value : ℚ)
  deriving DecidableEq, Repr

/-- Outcome of one `self.client.publish` call inside `publish_event`:
either it succeeds or it raises. -/
inductive ClientAttempt where
  | ok
  | exn
  deriving DecidableEq, Repr

/-- A publish call either returns a boolean or raises (`Except.error`). -/
abbrev PubOutcome := Except Unit Bool

/-- Tenacity retry loop of `publish_event`: try the next client attempt;
on an exception retry until the attempt budget is exhausted, then raise. -/
def retryAttempts : Nat → (Nat → ClientAttempt) → PubOutcome
  | 0, _ => Except.error ()
  | n + 1, f =>
      match f 0 with
      | ClientAttempt.ok => Except.ok true
      | ClientAttempt.exn => retryAttempts n (fun i => f (i + 1))

/-- `NATSService.publish_event` (nats_service.py lines 40-60): if the client
is not connected, log and return `False` (no exception, no retry); otherwise
attempt the publish under `retry(stop_after_attempt(3))` — a success returns
`True`, and an exception is logged and re-raised, so three raising attempts
make the call raise to its caller. -/
def publish_event (connected : Bool) (attempts : Nat → ClientAttempt) : PubOutcome :=
  if connected then retryAttempts 3 attempts else Except.ok false

/-- Status string of `NATSService.health_check` (nats_service.py 111-127):
no client → unhealthy, client connected → healthy, else unhealthy. -/
def nats_health_status (client : Option Bool) : String :=
  match client with
  | none => "unhealthy"
  | some is_connected => if is_connected then "healthy" else "unhealthy"

/-- Monitoring task status (`asyncio.Task`: running or done/cancelled). -/
inductive TaskStatus where
  | running
  | done
  deriving DecidableEq, Repr

/-- Mutable state of `CampaignPerformanceService`. -/
structure ServiceState where
  active_campaigns : List (String × CampaignMetrics)
  budget_limits : List (String × ℚ)
  monitoring_task : Option TaskStatus
  deriving DecidableEq, Repr

/-- `self._monitoring_task is not None and not self._monitoring_task.done()`. -/
def taskRunning : Option TaskStatus → Bool
  | some TaskStatus.running => true
  | _ => false

/-- Result of one public operation: the state after it, the events handed to
the transport in order (the last one may be the publish that raised), and
whether an exception propagated to the caller. -/
structure StepResult where
  state : ServiceState
  attempted : List Event
  raised : Bool
  deriving DecidableEq, Repr

/-- Run the publish attempts for a list of events against the transport
`pubs`, which gives the outcome of the i-th publish of this operation.
Publishing stops at the first raising publish (its exception propagates);
a `false` return is ignored by the service code, so publishing continues. -/
def attemptPublishes (pubs : Nat → PubOutcome) : Nat → List Event → List Event × Bool
  | _, [] => ([], false)
  | i, e :: rest =>
      match pubs i with
      | Except.error _ => ([e], true)
      | Except.ok _ =>
          let r := attemptPublishes pubs (i + 1) rest
          (e :: r.1, r.2)

/-- The zero-valued snapshot built by `register_campaign` (lines 66-70). -/
def initialMetrics (campaign_id campaign_name : String)
    (platform : CampaignPlatform) : CampaignMetrics :=
  { campaign_id := campaign_id, campaign_name := campaign_name, platform := platform }

/-- The merge-and-derive computation of `update_campaign_metrics`
(lines 93-125): raw counters default to the prior snapshot's values when
absent from the payload, then the four derived metrics are recomputed with
the division-by-zero guards. Derived fields of the payload are never read. -/
def calculate_updated_metrics (current : CampaignMetrics)
    (data : MetricsData) : CampaignMetrics :=
  let impressions := data.impressions.getD current.impressions
  let clicks := data.clicks.getD current.clicks
  let spend := data.spend.getD current.spend
  let conversions := data.conversions.getD current.conversions
  let revenue := data.revenue.getD current.revenue
  { campaign_id := current.campaign_id
    campaign_name := current.campaign_name
    platform := current.platform
    impressions := impressions
    clicks := clicks
    spend := spend
    conversions := conversions
    revenue := revenue
    ctr := if impressions > 0 then ((clicks : ℚ) / (impressions : ℚ)) * 100 else 0
    cpc := if clicks > 0 then spend / (clicks : ℚ) else 0
    cpm := if impressions > 0 then (spend / (impressions : ℚ)) * 1000 else 0
    roas := if spend > 0 then revenue / spend else 0 }

/-- `_check_metric_threshold` (lines 280-322): look up the low/high bounds
in the threshold dict; the Python guard `low_threshold and ...` is falsy
when the bound is absent or equal to 0.0. A below-crossing then an
above-crossing event may each be produced. -/
def check_metric_threshold (project_id campaign_id metric_name : String)
    (current_value previous_value : ℚ) : List Event :=
  let low := dictGet performance_thresholds (metric_name ++ "_low")
  let high := dictGet performance_thresholds (metric_name ++ "_high")
  let belowEvents :=
    match low with
    | none => []
    | some l =>
        if l ≠ 0 ∧ previous_value ≥ l ∧ current_value < l then
          [Event.thresholdCrossed project_id campaign_id metric_name "below" l current_value]
        else []
  let aboveEvents :=
    match high with
    | none => []
    | some h =>
        if h ≠ 0 ∧ previous_value ≤ h ∧ current_value > h then
          [Event.thresholdCrossed project_id campaign_id metric_name "above" h current_value]
        else []
  belowEvents ++ aboveEvents

/-- Budget part of `_check_performance_alerts` (lines 232-263): when a
budget limit is stored for the snapshot's campaign_id and the new spend
exceeds it, one budget-exceeded event and one derived high-severity alert
are produced. -/
def check_budget (project_id : String) (budget_limits : List (String × ℚ))
    (current : CampaignMetrics) : List Event :=
  match dictGet budget_limits current.campaign_id with
  | none => []
  | some budget_limit =>
      if current.spend > budget_limit then
        let percentage_exceeded := ((current.spend - budget_limit) / budget_limit) * 100
        [Event.budgetExceeded project_id current.campaign_id budget_limit
           current.spend percentage_exceeded,
         Event.performanceAlert project_id current.campaign_id "budget_exceeded" "high"
           budget_limit current.spend]
      else []

/-- `_check_performance_alerts` (lines 223-278): the events it publishes, in
publish order — budget check first, then threshold checks for roas, ctr, cpc
(each passing the new value as current and the old value as previous). -/
def check_performance_alerts (project_id : String)
    (budget_limits : List (String × ℚ))
    (previous current : CampaignMetrics) : List Event :=
  check_budget project_id budget_limits current
    ++ check_metric_threshold project_id current.campaign_id "roas" current.roas previous.roas
    ++ check_metric_threshold project_id current.campaign_id "ctr" current.ctr previous.ctr
    ++ check_metric_threshold project_id current.campaign_id "cpc" current.cpc previous.cpc

/-- `update_campaign_metrics` (lines 82-134): no-op for an unknown
campaign_id; otherwise merge the payload over the stored snapshot, recompute
derived metrics, store the new snapshot, then publish the metrics-updated
event followed by the alert events. The publish outcomes do not influence
the control flow unless a publish raises, which aborts the remaining
publishes and propagates (the store is not rolled back). -/
def update_campaign_metrics (project_id campaign_id : String)
    (metrics_data : MetricsData) (pubs : Nat → PubOutcome)
    (s : ServiceState) : StepResult :=
  match dictGet s.active_campaigns campaign_id with
  | none => ⟨s, [], false⟩
  | some current =>
      let updated := calculate_updated_metrics current metrics_data
      let s' : ServiceState :=
        { s with active_campaigns := dictSet s.active_campaigns campaign_id updated }
      let evs := Event.metricsUpdated project_id updated.campaign_id updated ::
        check_performance_alerts project_id s.budget_limits current updated
      let r := attemptPublishes pubs 0 evs
      ⟨s', r.1, r.2⟩

/-- `register_campaign` (lines 57-80): store the zero-valued snapshot,
store the budget limit only when it is truthy (`if budget_limit:` — absent
or 0.0 is falsy), then publish the initial metrics-updated event. -/
def register_campaign (project_id campaign_id campaign_name : String)
    (platform : CampaignPlatform) (budget_limit : Option ℚ)
    (pubs : Nat → PubOutcome) (s : ServiceState) : StepResult :=
  let initial := initialMetrics campaign_id campaign_name platform
  let campaigns' := dictSet s.active_campaigns campaign_id initial
  let limits' :=
    match budget_limit with
    | none => s.budget_limits
    | some b => if b ≠ 0 then dictSet s.budget_limits campaign_id b else s.budget_limits
  let s' : ServiceState :=
    { s with active_campaigns := campaigns', budget_limits := limits' }
  let r := attemptPublishes pubs 0 [Event.metricsUpdated project_id initial.campaign_id initial]
  ⟨s', r.1, r.2⟩

/-- `get_campaign_metrics` (lines 324-326). -/
def get_campaign_metrics (s : ServiceState) (campaign_id : String) :
    Option CampaignMetrics :=
  dictGet s.active_campaigns campaign_id

/-- `start_monitoring` (lines 41-45): spawn the loop task only when none is
running (or the prior one is done); the boolean reports whether
`asyncio.create_task` was called. -/
def start_monitoring (s : ServiceState) : ServiceState × Bool :=
  match s.monitoring_task with
  | some TaskStatus.running => (s, false)
  | _ => ({ s with monitoring_task := some TaskStatus.running }, true)

/-- `stop_monitoring` (lines 47-55): cancel and await the task only when one
is running; the boolean reports whether a task was cancelled. -/
def stop_monitoring (s : ServiceState) : ServiceState × Bool :=
  match s.monitoring_task with
  | some TaskStatus.running => ({ s with monitoring_task := some TaskStatus.done }, true)
  | _ => (s, false)

/-- Outcome of one iteration of the body of `_monitoring_loop`: the refresh
completed, or `asyncio.CancelledError` reached the loop frame, or another
exception did. -/
inductive IterOutcome where
  | success
  | cancelledErr
  | exn
  deriving DecidableEq, Repr

/-- What the loop does after an iteration: sleep some number of seconds and
iterate again, or exit the loop. -/
inductive LoopAction where
  | sleepThenContinue (seconds : Nat)
  | exitLoop
  deriving DecidableEq, Repr

/-- Exception routing of `_monitoring_loop` (lines 189-205): a successful
iteration sleeps 30s and continues; `CancelledError` breaks the loop; any
other exception is caught at the loop's outermost frame, logged, and
followed by a 60s backoff sleep before the next iteration. -/
def monitoring_loop_step : IterOutcome → LoopAction
  | IterOutcome.success => LoopAction.sleepThenContinue 30
  | IterOutcome.cancelledErr => LoopAction.exitLoop
  | IterOutcome.exn => LoopAction.sleepThenContinue 60

/-- Python `str()` of a bool, as used by `health_check`. -/
def pyBoolStr (b : Bool) : String :=
  if b then "True" else "False"

/-- Shape of the dict returned by `CampaignPerformanceService.health_check`. -/
structure HealthReport where
  service : String
  active_campaigns : String
  monitoring_active : String
  nats : String
  deriving DecidableEq, Repr

/-- `health_check` (lines 332-347): service status is always "healthy",
active_campaigns is `str(len(self.active_campaigns))`, monitoring_active is
`str(task is not None and not task.done())`, and the nats entry is the
hardcoded string "healthy" — the transport's own health check (whose status
is passed here as `transport_status`) is not consulted. -/
def health_check (s : ServiceState) (transport_status : String) : HealthReport :=
  let _ := transport_status
  { service := "healthy"
    active_campaigns := toString s.active_campaigns.length
    monitoring_active := pyBoolStr (taskRunning s.monitoring_task)
    nats := "healthy" }

/-- Recognizer for budget-exceeded events. -/
def isBudgetEvent : Event → Bool
  | Event.budgetExceeded _ _ _ _ _ => true
  | _ => false

/-- Recognizer for performance-alert events. -/
def isAlertEvent : Event → Bool
  | Event.performanceAlert _ _ _ _ _ _ => true
  | _ => false

/-- Derived fields of a snapshot agree with its raw counters under the
formulas of the Metrics Calculator. -/
def consistentMetrics (m : CampaignMetrics) : Prop :=
  m.ctr = (if m.impressions > 0 then ((m.clicks : ℚ) / (m.impressions : ℚ)) * 100 else 0) ∧
  m.cpc = (if m.clicks > 0 then m.spend / (m.clicks : ℚ) else 0) ∧
  m.cpm = (if m.impressions > 0 then (m.spend / (m.impressions : ℚ)) * 1000 else 0) ∧
  m.roas = (if m.spend > 0 then m.revenue / m.spend else 0)

/-- Every snapshot stored in the registry is consistent. -/
def registryConsistent (s : ServiceState) : Prop :=
  ∀ cid m, dictGet s.active_campaigns cid = some m → consistentMetrics m

/-! Concrete sample data used to evaluate the operations. -/

/-- A transport whose publishes all succeed. -/
def okPubs : Nat → PubOutcome := fun _ => Except.ok true

/-- A transport whose publishes all return `false` without raising. -/
def falsePubs : Nat → PubOutcome := fun _ => Except.ok false

/-- A transport whose publishes all raise. -/
def exnPubs : Nat → PubOutcome := fun _ => Except.error ()

/-- A NATS client whose every `publish` call raises. -/
def raisingClient : Nat → ClientAttempt := fun _ => ClientAttempt.exn

/-- A sample stored snapshot for campaign "c1". -/
def m1 : CampaignMetrics :=
  { campaign_id := "c1", campaign_name := "Camp One",
    platform := CampaignPlatform.google_ads,
    impressions := 1000, clicks := 50, spend := 100, conversions := 5,
    revenue := 300, ctr := 5, cpc := 2, cpm := 100, roas := 3 }

/-- A sample state with campaign "c1" registered and a 1000.0 budget limit. -/
def sampleS : ServiceState :=
  { active_campaigns := [("c1", m1)], budget_limits := [("c1", 1000)],
    monitoring_task := none }

/-- A sample state with campaign "c1" registered and no budget limits. -/
def sampleNoBudgetS : ServiceState :=
  { active_campaigns := [("c1", m1)], budget_limits := [],
    monitoring_task := none }

/-- The empty service state, as after `__init__`. -/
def emptyS : ServiceState :=
  { active_campaigns := [], budget_limits := [], monitoring_task := none }

/-- A state whose monitoring task is running. -/
def runningS : ServiceState :=
  { active_campaigns := [], budget_limits := [],
    monitoring_task := some TaskStatus.running }

/-- The empty update payload. -/
def dEmpty : MetricsData := {}

/-- A payload setting only spend, to 1200.0. -/
def dSpend : MetricsData := { spend := some 1200 }

/-- A payload driving roas to 0.5 (= 50 / 100). -/
def dLowRoas : MetricsData := { spend := some 100, revenue := some 50 }

/-! Shared lemmas about the dictionary and publish-attempt helpers. -/

theorem dictGet_dictSet_self {α : Type} (d : List (String × α)) (k : String) (v : α) :
    dictGet (dictSet d k v) k = some v := by
  induction d with
  | nil => simp [dictGet, dictSet]
  | cons p rest ih =>
      by_cases h : p.1 = k
      · simp [dictGet, dictSet, h]
      · simp [dictGet, dictSet, h, ih]

theorem dictGet_dictSet_ne {α : Type} (d : List (String × α)) (k k' : String) (v : α)
    (h : k ≠ k') : dictGet (dictSet d k v) k' = dictGet d k' := by
  induction d with
  | nil => simp [dictGet, dictSet, h]
  | cons p rest ih =>
      by_cases hp : p.1 = k
      · subst hp
        simp [dictGet, dictSet, h]
      · simp [dictGet, dictSet, hp, ih]

theorem attemptPublishes_all_ok (pubs : Nat → PubOutcome)
    (h : ∀ i, ∃ b, pubs i = Except.ok b) :
    ∀ evs n, attemptPublishes pubs n evs = (evs, false) := by
  intro evs
  induction evs with
  | nil => intro n; rfl
  | cons e rest ih =>
      intro n
      obtain ⟨b, hb⟩ := h n
      simp [attemptPublishes, hb, ih]

theorem mem_attemptPublishes (pubs : Nat → PubOutcome) :
    ∀ evs n e, e ∈ (attemptPublishes pubs n evs).1 → e ∈ evs := by
  intro evs
  induction evs with
  | nil => intro n e h; simp [attemptPublishes] at h
  | cons x rest ih =>
      intro n e h
      unfold attemptPublishes at h
      cases hp : pubs n with
      | error u =>
          rw [hp] at h
          simp only [List.mem_singleton] at h
          simp [h]
      | ok b =>
          rw [hp] at h
          simp only [List.mem_cons] at h
          rcases h with h | h
          · simp [h]
          · exact List.mem_cons_of_mem _ (ih _ _ h)

/-! Lemmas about the alert evaluator's output. -/

theorem mem_check_metric_threshold {pid cid name : String} {cur prev : ℚ} {e : Event} :
    e ∈ check_metric_threshold pid cid name cur prev ↔
      ((∃ l, dictGet performance_thresholds (name ++ "_low") = some l ∧
          l ≠ 0 ∧ prev ≥ l ∧ cur < l ∧
          e = Event.thresholdCrossed pid cid name "below" l cur) ∨
       (∃ ht, dictGet performance_thresholds (name ++ "_high") = some ht ∧
          ht ≠ 0 ∧ prev ≤ ht ∧ cur > ht ∧
          e = Event.thresholdCrossed pid cid name "above" ht cur)) := by
  unfold check_metric_threshold
  rcases hl : dictGet performance_thresholds (name ++ "_low") with _ | l <;>
    rcases hh : dictGet performance_thresholds (name ++ "_high") with _ | h
  · simp
  · by_cases hc : h ≠ 0 ∧ prev ≤ h ∧ cur > h <;> (simp [hc]; try tauto)
  · by_cases hc : l ≠ 0 ∧ prev ≥ l ∧ cur < l <;> (simp [hc]; try tauto)
  · by_cases hc : l ≠ 0 ∧ prev ≥ l ∧ cur < l <;>
      by_cases hc' : h ≠ 0 ∧ prev ≤ h ∧ cur > h <;> simp [hc, hc'] <;> tauto

theorem check_metric_threshold_kinds (pid cid name : String) (cur prev : ℚ) :
    ∀ e ∈ check_metric_threshold pid cid name cur prev,
      isBudgetEvent e = false ∧ isAlertEvent e = false := by
  intro e he
  rw [mem_check_metric_threshold] at he
  rcases he with ⟨l, _, _, _, _, rfl⟩ | ⟨h, _, _, _, _, rfl⟩ <;> exact ⟨rfl, rfl⟩

theorem check_budget_of_limit {budget_limits : List (String × ℚ)}
    {cur : CampaignMetrics} {L : ℚ} (pid : String)
    (hL : dictGet budget_limits cur.campaign_id = some L) :
    check_budget pid budget_limits cur =
      if cur.spend > L then
        [Event.budgetExceeded pid cur.campaign_id L cur.spend
           (((cur.spend - L) / L) * 100),
         Event.performanceAlert pid cur.campaign_id "budget_exceeded" "high"
           L cur.spend]
      else [] := by
  unfold check_budget
  rw [hL]

theorem check_budget_of_no_limit {budget_limits : List (String × ℚ)}
    {cur : CampaignMetrics} (pid : String)
    (hL : dictGet budget_limits cur.campaign_id = none) :
    check_budget pid budget_limits cur = [] := by
  unfold check_budget
  rw [hL]

theorem not_mem_check_budget_threshold (pid : String)
    (budget_limits : List (String × ℚ)) (cur : CampaignMetrics)
    (p c n t : String) (v w : ℚ) :
    Event.thresholdCrossed p c n t v w ∉ check_budget pid budget_limits cur := by
  unfold check_budget
  rcases dictGet budget_limits cur.campaign_id with _ | L
  · simp
  · by_cases h : cur.spend > L <;> simp [h]

/-! Lemmas reducing the concrete threshold configuration. -/

theorem th_roas_low : dictGet performance_thresholds ("roas" ++ "_low") = some 2 := by decide
theorem th_roas_high : dictGet performance_thresholds ("roas" ++ "_high") = some 5 := by decide
theorem th_ctr_low : dictGet performance_thresholds ("ctr" ++ "_low") = some 1 := by decide
theorem th_ctr_high : dictGet performance_thresholds ("ctr" ++ "_high") = some 5 := by decide
theorem th_cpc_low : dictGet performance_thresholds ("cpc" ++ "_low") = none := by decide
theorem th_cpc_high : dictGet performance_thresholds ("cpc" ++ "_high") = some 2 := by decide

/-- The events an update on a registered campaign hands to a non-raising
transport: the metrics-updated event followed by the alert events. -/
theorem update_attempted_of_ok (pid cid : String) (data : MetricsData)
    (pubs : Nat → PubOutcome) (s : ServiceState) (m : CampaignMetrics)
    (hm : dictGet s.active_campaigns cid = some m)
    (hp : ∀ i, ∃ b, pubs i = Except.ok b) :
    (update_campaign_metrics pid cid data pubs s).attempted =
      Event.metricsUpdated pid (calculate_updated_metrics m data).campaign_id
          (calculate_updated_metrics m data) ::
        check_performance_alerts pid s.budget_limits m
          (calculate_updated_metrics m data) := by
  unfold update_campaign_metrics
  rw [hm]
  simp [attemptPublishes_all_ok pubs hp]

/-! Claim theorems. -/

/-- C1 (counterexample): the claim that every transport publish returns a
boolean rather than raising, and that no exception propagates out of
`update_campaign_metrics`, is false: with a connected NATS client whose
underlying publish raises, `publish_event` re-raises after its three retry
attempts, and the exception propagates out of `update_campaign_metrics`
called on a registered campaign. -/
theorem c1_counterexample :
    publish_event true raisingClient = Except.error () ∧
      (update_campaign_metrics "p" "c1" dEmpty
          (fun _ => publish_event true raisingClient) sampleS).raised = true :=
  ⟨rfl, rfl⟩

/-- C1 (amended): a publish failure surfaced as a boolean is absorbed — when
the NATS client is not connected, `publish_event` returns `false` without
raising, and whenever every transport publish returns a boolean (true or
false), no exception propagates out of `update_campaign_metrics`. (A
transport that raises is instead re-raised by `publish_event`, see the
counterexample.) -/
theorem c1_boolean_publishes_absorbed :
    (∀ f, publish_event false f = Except.ok false) ∧
    (∀ pid cid data pubs s, (∀ i : Nat, ∃ b, pubs i = Except.ok b) →
       (update_campaign_metrics pid cid data pubs s).raised = false) := by
  constructor
  · intro f; rfl
  · intro pid cid data pubs s hp
    unfold update_campaign_metrics
    cases h : dictGet s.active_campaigns cid with
    | none => rfl
    | some m => simp [attemptPublishes_all_ok pubs hp]

/-- C1 witness: a transport whose publishes all return `false` is absorbed by
a concrete update on a registered campaign. -/
theorem c1_witness :
    (∀ i : Nat, ∃ b, falsePubs i = Except.ok b) ∧
      (update_campaign_metrics "p" "c1" dSpend falsePubs sampleS).raised = false :=
  ⟨fun _ => ⟨false, rfl⟩,
   c1_boolean_publishes_absorbed.2 "p" "c1" dSpend falsePubs sampleS
     (fun _ => ⟨false, rfl⟩)⟩

/-- C4: for every update of a registered campaign, the stored snapshot's raw
counters are the payload values merged over the prior snapshot, and its
derived fields satisfy the guarded formulas (ctr, cpc, cpm, roas) computed
from those merged counters, with the zero cases reported as 0. -/
theorem c4_derived_metrics (pid cid : String) (data : MetricsData)
    (pubs : Nat → PubOutcome) (s : ServiceState) (m : CampaignMetrics)
    (hm : dictGet s.active_campaigns cid = some m) :
    ∃ u, get_campaign_metrics (update_campaign_metrics pid cid data pubs s).state cid
        = some u ∧
      u.impressions = data.impressions.getD m.impressions ∧
      u.clicks = data.clicks.getD m.clicks ∧
      u.spend = data.spend.getD m.spend ∧
      u.conversions = data.conversions.getD m.conversions ∧
      u.revenue = data.revenue.getD m.revenue ∧
      u.ctr = (if u.impressions > 0 then ((u.clicks : ℚ) / (u.impressions : ℚ)) * 100 else 0) ∧
      u.cpc = (if u.clicks > 0 then u.spend / (u.clicks : ℚ) else 0) ∧
      u.cpm = (if u.impressions > 0 then (u.spend / (u.impressions : ℚ)) * 1000 else 0) ∧
      u.roas = (if u.spend > 0 then u.revenue / u.spend else 0) := by
  refine ⟨calculate_updated_metrics m data, ?_, rfl, rfl, rfl, rfl, rfl, rfl, rfl, rfl, rfl⟩
  unfold update_campaign_metrics get_campaign_metrics
  rw [hm]
  exact dictGet_dictSet_self _ _ _

/-- C4 witness: the derived-metric formulas hold for a concrete update. -/
theorem c4_witness :
    dictGet sampleS.active_campaigns "c1" = some m1 ∧
      (∃ u, get_campaign_metrics
            (update_campaign_metrics "p" "c1" dLowRoas okPubs sampleS).state "c1" = some u ∧
          u.impressions = dLowRoas.impressions.getD m1.impressions ∧
          u.clicks = dLowRoas.clicks.getD m1.clicks ∧
          u.spend = dLowRoas.spend.getD m1.spend ∧
          u.conversions = dLowRoas.conversions.getD m1.conversions ∧
          u.revenue = dLowRoas.revenue.getD m1.revenue ∧
          u.ctr = (if u.impressions > 0 then ((u.clicks : ℚ) / (u.impressions : ℚ)) * 100 else 0) ∧
          u.cpc = (if u.clicks > 0 then u.spend / (u.clicks : ℚ) else 0) ∧
          u.cpm = (if u.impressions > 0 then (u.spend / (u.impressions : ℚ)) * 1000 else 0) ∧
          u.roas = (if u.spend > 0 then u.revenue / u.spend else 0)) :=
  ⟨rfl, c4_derived_metrics "p" "c1" dLowRoas okPubs sampleS m1 rfl⟩

/-- C5: for every update of a registered campaign, the new snapshot is
committed to the registry whatever the transport does — the resulting state
is independent of the publish outcomes (the write happens before the
publish attempts and is not rolled back), and `get_campaign_metrics`
afterwards returns the updated values. -/
theorem c5_write_committed_before_publish (pid cid : String) (data : MetricsData)
    (pubs pubs' : Nat → PubOutcome) (s : ServiceState) (m : CampaignMetrics)
    (hm : dictGet s.active_campaigns cid = some m) :
    get_campaign_metrics (update_campaign_metrics pid cid data pubs s).state cid
        = some (calculate_updated_metrics m data) ∧
      (update_campaign_metrics pid cid data pubs s).state
        = (update_campaign_metrics pid cid data pubs' s).state := by
  unfold update_campaign_metrics get_campaign_metrics
  rw [hm]
  exact ⟨dictGet_dictSet_self _ _ _, rfl⟩

/-- C5 witness: with a transport whose every publish raises, the concrete
update's write is still visible to a subsequent get. -/
theorem c5_witness :
    dictGet sampleS.active_campaigns "c1" = some m1 ∧
      get_campaign_metrics
          (update_campaign_metrics "p" "c1" dSpend exnPubs sampleS).state "c1"
        = some (calculate_updated_metrics m1 dSpend) :=
  ⟨rfl, (c5_write_committed_before_publish "p" "c1" dSpend exnPubs okPubs
      sampleS m1 rfl).1⟩

/-- C6: an update addressed to a campaign_id absent from the registry is a
complete no-op — the state (campaign registry, budget limits, monitoring
task) is unchanged, no event is handed to the transport, and no exception
is raised. -/
theorem c6_unregistered_update_noop (pid cid : String) (data : MetricsData)
    (pubs : Nat → PubOutcome) (s : ServiceState)
    (h : dictGet s.active_campaigns cid = none) :
    update_campaign_metrics pid cid data pubs s = ⟨s, [], false⟩ := by
  unfold update_campaign_metrics
  rw [h]

/-- C6 witness: updating a never-registered campaign on the empty state. -/
theorem c6_witness :
    dictGet emptyS.active_campaigns "ghost" = none ∧
      update_campaign_metrics "p" "ghost" dSpend okPubs emptyS = ⟨emptyS, [], false⟩ :=
  ⟨rfl, c6_unregistered_update_noop "p" "ghost" dSpend okPubs emptyS rfl⟩

/-- C8 (counterexample): the claim that `health_check` reports the
transport's status as reported by the transport's own health check is
false — with no NATS client the transport's health check reports
"unhealthy", yet `health_check` reports "healthy" for the nats entry. -/
theorem c8_counterexample :
    nats_health_status none = "unhealthy" ∧
      (health_check emptyS (nats_health_status none)).nats = "healthy" ∧
      (health_check emptyS (nats_health_status none)).nats ≠ nats_health_status none :=
  ⟨rfl, rfl, by decide⟩

/-- C8 (amended): `health_check` reports the count of registered campaigns
(as a decimal string) and whether the monitoring task is currently running,
and the overall service status "healthy"; but the nats entry is the
hardcoded string "healthy" for every transport state — the transport's own
health check is not consulted, so the report is independent of it. -/
theorem c8_health_report (s : ServiceState) (t t' : String) :
    (health_check s t).service = "healthy" ∧
    (health_check s t).active_campaigns = toString s.active_campaigns.length ∧
    (health_check s t).monitoring_active = pyBoolStr (taskRunning s.monitoring_task) ∧
    (health_check s t).nats = "healthy" ∧
    health_check s t = health_check s t' :=
  ⟨rfl, rfl, rfl, rfl, rfl⟩

/-- C9: the monitoring loop exits only on cancellation — its step maps a
non-cancellation exception to a logged 60s backoff followed by the next
iteration (and a successful iteration to a 30s sleep), and `exitLoop` is
reached exactly on `CancelledError`; `start_monitoring` is a no-op (no task
created) while a task is running, and `stop_monitoring` is a no-op while
none is running, so at most one loop task exists at a time. -/
theorem c9_monitoring_lifecycle :
    (∀ o, monitoring_loop_step o = LoopAction.exitLoop ↔ o = IterOutcome.cancelledErr) ∧
    monitoring_loop_step IterOutcome.exn = LoopAction.sleepThenContinue 60 ∧
    monitoring_loop_step IterOutcome.success = LoopAction.sleepThenContinue 30 ∧
    (∀ s, taskRunning s.monitoring_task = true → start_monitoring s = (s, false)) ∧
    (∀ s, taskRunning s.monitoring_task = false → stop_monitoring s = (s, false)) := by
  refine ⟨?_, rfl, rfl, ?_, ?_⟩
  · intro o; cases o <;> simp [monitoring_loop_step]
  · intro s h
    unfold start_monitoring
    cases hmt : s.monitoring_task with
    | none => rw [hmt] at h; simp [taskRunning] at h
    | some st =>
        cases st with
        | running => rfl
        | done => rw [hmt] at h; simp [taskRunning] at h
  · intro s h
    unfold stop_monitoring
    cases hmt : s.monitoring_task with
    | none => rfl
    | some st =>
        cases st with
        | running => rw [hmt] at h; simp [taskRunning] at h
        | done => rfl

/-! Further shared lemmas for the evaluator claims. -/

theorem consistent_initial (cid cname : String) (pl : CampaignPlatform) :
    consistentMetrics (initialMetrics cid cname pl) := by
  refine ⟨?_, ?_, ?_, ?_⟩ <;> simp [consistentMetrics, initialMetrics]

theorem consistent_calculate (m : CampaignMetrics) (data : MetricsData) :
    consistentMetrics (calculate_updated_metrics m data) :=
  ⟨rfl, rfl, rfl, rfl⟩

theorem update_attempted_sub (pid cid : String) (data : MetricsData)
    (pubs : Nat → PubOutcome) (s : ServiceState) (m : CampaignMetrics)
    (hm : dictGet s.active_campaigns cid = some m) :
    ∀ e ∈ (update_campaign_metrics pid cid data pubs s).attempted,
      e ∈ Event.metricsUpdated pid (calculate_updated_metrics m data).campaign_id
            (calculate_updated_metrics m data) ::
          check_performance_alerts pid s.budget_limits m
            (calculate_updated_metrics m data) := by
  intro e he
  unfold update_campaign_metrics at he
  rw [hm] at he
  exact mem_attemptPublishes _ _ _ _ he

theorem cmt_countP_budget_zero (pid cid name : String) (cur prev : ℚ) :
    (check_metric_threshold pid cid name cur prev).countP isBudgetEvent = 0 :=
  List.countP_eq_zero.mpr
    (fun e he => by simp [(check_metric_threshold_kinds pid cid name cur prev e he).1])

theorem cmt_countP_alert_zero (pid cid name : String) (cur prev : ℚ) :
    (check_metric_threshold pid cid name cur prev).countP isAlertEvent = 0 :=
  List.countP_eq_zero.mpr
    (fun e he => by simp [(check_metric_threshold_kinds pid cid name cur prev e he).2])

theorem update_not_registered (pid cid : String) (data : MetricsData)
    (pubs : Nat → PubOutcome) (s : ServiceState)
    (h : dictGet s.active_campaigns cid = none) :
    update_campaign_metrics pid cid data pubs s = ⟨s, [], false⟩ := by
  unfold update_campaign_metrics
  rw [h]

theorem update_state_registered (pid cid : String) (data : MetricsData)
    (pubs : Nat → PubOutcome) (s : ServiceState) (m : CampaignMetrics)
    (hm : dictGet s.active_campaigns cid = some m) :
    (update_campaign_metrics pid cid data pubs s).state.active_campaigns
      = dictSet s.active_campaigns cid (calculate_updated_metrics m data) := by
  unfold update_campaign_metrics
  rw [hm]

/-- Characterization of the threshold events produced by a single alert
evaluation: exactly the configured edge crossings, with the concrete
threshold bounds of the service's configuration. -/
theorem mem_alerts_threshold (pid : String) (bl : List (String × ℚ))
    (prev cur : CampaignMetrics) (p c name ty : String) (tv cv : ℚ) :
    Event.thresholdCrossed p c name ty tv cv
        ∈ check_performance_alerts pid bl prev cur ↔
      (p = pid ∧ c = cur.campaign_id ∧
        ((name = "roas" ∧ ty = "below" ∧ tv = 2 ∧ cv = cur.roas ∧
            prev.roas ≥ 2 ∧ cur.roas < 2) ∨
         (name = "roas" ∧ ty = "above" ∧ tv = 5 ∧ cv = cur.roas ∧
            prev.roas ≤ 5 ∧ cur.roas > 5) ∨
         (name = "ctr" ∧ ty = "below" ∧ tv = 1 ∧ cv = cur.ctr ∧
            prev.ctr ≥ 1 ∧ cur.ctr < 1) ∨
         (name = "ctr" ∧ ty = "above" ∧ tv = 5 ∧ cv = cur.ctr ∧
            prev.ctr ≤ 5 ∧ cur.ctr > 5) ∨
         (name = "cpc" ∧ ty = "above" ∧ tv = 2 ∧ cv = cur.cpc ∧
            prev.cpc ≤ 2 ∧ cur.cpc > 2))) := by
  unfold check_performance_alerts
  simp only [List.mem_append, not_mem_check_budget_threshold, false_or]
  rw [mem_check_metric_threshold, mem_check_metric_threshold, mem_check_metric_threshold,
    th_roas_low, th_roas_high, th_ctr_low, th_ctr_high, th_cpc_low, th_cpc_high]
  simp only [Option.some.injEq, Event.thresholdCrossed.injEq, ne_eq,
    OfNat.ofNat_ne_zero, not_false_eq_true, true_and, false_and, exists_false,
    or_false, false_or, one_ne_zero, exists_eq_left', reduceCtorEq]
  constructor
  · rintro (((⟨h1, h2, rfl, rfl, rfl, rfl, rfl, rfl⟩ |
        ⟨h1, h2, rfl, rfl, rfl, rfl, rfl, rfl⟩) |
        (⟨h1, h2, rfl, rfl, rfl, rfl, rfl, rfl⟩ |
        ⟨h1, h2, rfl, rfl, rfl, rfl, rfl, rfl⟩)) |
        ⟨h1, h2, rfl, rfl, rfl, rfl, rfl, rfl⟩)
    · exact ⟨rfl, rfl, Or.inl ⟨rfl, rfl, rfl, rfl, h1, h2⟩⟩
    · exact ⟨rfl, rfl, Or.inr (Or.inl ⟨rfl, rfl, rfl, rfl, h1, h2⟩)⟩
    · exact ⟨rfl, rfl, Or.inr (Or.inr (Or.inl ⟨rfl, rfl, rfl, rfl, h1, h2⟩))⟩
    · exact ⟨rfl, rfl, Or.inr (Or.inr (Or.inr (Or.inl ⟨rfl, rfl, rfl, rfl, h1, h2⟩)))⟩
    · exact ⟨rfl, rfl, Or.inr (Or.inr (Or.inr (Or.inr ⟨rfl, rfl, rfl, rfl, h1, h2⟩)))⟩
  · rintro ⟨rfl, rfl, (⟨rfl, rfl, rfl, rfl, h1, h2⟩ |
        ⟨rfl, rfl, rfl, rfl, h1, h2⟩ |
        ⟨rfl, rfl, rfl, rfl, h1, h2⟩ |
        ⟨rfl, rfl, rfl, rfl, h1, h2⟩ |
        ⟨rfl, rfl, rfl, rfl, h1, h2⟩)⟩
    · exact Or.inl (Or.inl (Or.inl ⟨h1, h2, rfl, rfl, rfl, rfl, rfl, rfl⟩))
    · exact Or.inl (Or.inl (Or.inr ⟨h1, h2, rfl, rfl, rfl, rfl, rfl, rfl⟩))
    · exact Or.inl (Or.inr (Or.inl ⟨h1, h2, rfl, rfl, rfl, rfl, rfl, rfl⟩))
    · exact Or.inl (Or.inr (Or.inr ⟨h1, h2, rfl, rfl, rfl, rfl, rfl, rfl⟩))
    · exact Or.inr ⟨h1, h2, rfl, rfl, rfl, rfl, rfl, rfl⟩

/-- C2: for every update of a registered campaign under a transport that
returns booleans, a threshold event is handed to the transport exactly for
the configured edge crossings: "below" with threshold_value the metric's
low bound and current_value the new metric value when the old value was at
or above the bound and the new one is strictly below it (roas low 2, ctr
low 1), and "above" dually at the high bound (roas 5, ctr 5, cpc 2); cpc
has no low bound, so no cpc "below" event ever occurs — the disjunction
below has no such case. -/
theorem c2_threshold_events (pid cid : String) (data : MetricsData)
    (pubs : Nat → PubOutcome) (s : ServiceState) (m : CampaignMetrics)
    (hm : dictGet s.active_campaigns cid = some m)
    (hp : ∀ i : Nat, ∃ b, pubs i = Except.ok b) :
    ∀ p c name ty tv cv,
      (Event.thresholdCrossed p c name ty tv cv
          ∈ (update_campaign_metrics pid cid data pubs s).attempted) ↔
      (p = pid ∧ c = m.campaign_id ∧
        ((name = "roas" ∧ ty = "below" ∧ tv = 2 ∧
            cv = (calculate_updated_metrics m data).roas ∧
            m.roas ≥ 2 ∧ (calculate_updated_metrics m data).roas < 2) ∨
         (name = "roas" ∧ ty = "above" ∧ tv = 5 ∧
            cv = (calculate_updated_metrics m data).roas ∧
            m.roas ≤ 5 ∧ (calculate_updated_metrics m data).roas > 5) ∨
         (name = "ctr" ∧ ty = "below" ∧ tv = 1 ∧
            cv = (calculate_updated_metrics m data).ctr ∧
            m.ctr ≥ 1 ∧ (calculate_updated_metrics m data).ctr < 1) ∨
         (name = "ctr" ∧ ty = "above" ∧ tv = 5 ∧
            cv = (calculate_updated_metrics m data).ctr ∧
            m.ctr ≤ 5 ∧ (calculate_updated_metrics m data).ctr > 5) ∨
         (name = "cpc" ∧ ty = "above" ∧ tv = 2 ∧
            cv = (calculate_updated_metrics m data).cpc ∧
            m.cpc ≤ 2 ∧ (calculate_updated_metrics m data).cpc > 2))) := by
  intro p c name ty tv cv
  rw [update_attempted_of_ok pid cid data pubs s m hm hp, List.mem_cons,
    mem_alerts_threshold]
  have hcid : (calculate_updated_metrics m data).campaign_id = m.campaign_id := rfl
  rw [hcid]
  simp

/-- C2 witness: a concrete update drives roas from 3 down to 1/2, producing
the "below" event at the roas low threshold 2. -/
theorem c2_witness :
    dictGet sampleS.active_campaigns "c1" = some m1 ∧
      (∀ i : Nat, ∃ b, okPubs i = Except.ok b) ∧
      Event.thresholdCrossed "p" m1.campaign_id "roas" "below" 2
          (calculate_updated_metrics m1 dLowRoas).roas
        ∈ (update_campaign_metrics "p" "c1" dLowRoas okPubs sampleS).attempted :=
  ⟨rfl, fun _ => ⟨true, rfl⟩,
   (c2_threshold_events "p" "c1" dLowRoas okPubs sampleS m1 rfl
       (fun _ => ⟨true, rfl⟩) "p" m1.campaign_id "roas" "below" 2
       ((calculate_updated_metrics m1 dLowRoas).roas)).mpr
     ⟨rfl, rfl, Or.inl ⟨rfl, rfl, rfl, rfl,
       by norm_num [m1],
       by norm_num [calculate_updated_metrics, m1, dLowRoas, Option.getD]⟩⟩⟩

/-- C3: for every update of a registered campaign with a stored budget
limit, under a transport that returns booleans: exactly when the new spend
strictly exceeds the limit, exactly one budget-exceeded event (with
percentage_exceeded = (spend - limit) / limit * 100) and exactly one
performance alert (alert_type "budget_exceeded", severity "high") are
handed to the transport; otherwise none of either kind. This holds for
every such update, with no suppression. -/
theorem c3_budget_exceeded (pid cid : String) (data : MetricsData)
    (pubs : Nat → PubOutcome) (s : ServiceState) (m : CampaignMetrics) (L : ℚ)
    (hm : dictGet s.active_campaigns cid = some m)
    (hL : dictGet s.budget_limits m.campaign_id = some L)
    (hp : ∀ i : Nat, ∃ b, pubs i = Except.ok b) :
    ((calculate_updated_metrics m data).spend > L →
       (update_campaign_metrics pid cid data pubs s).attempted.countP isBudgetEvent = 1 ∧
       (update_campaign_metrics pid cid data pubs s).attempted.countP isAlertEvent = 1 ∧
       Event.budgetExceeded pid m.campaign_id L (calculate_updated_metrics m data).spend
           ((((calculate_updated_metrics m data).spend - L) / L) * 100)
         ∈ (update_campaign_metrics pid cid data pubs s).attempted ∧
       Event.performanceAlert pid m.campaign_id "budget_exceeded" "high" L
           (calculate_updated_metrics m data).spend
         ∈ (update_campaign_metrics pid cid data pubs s).attempted) ∧
    (¬ (calculate_updated_metrics m data).spend > L →
       (update_campaign_metrics pid cid data pubs s).attempted.countP isBudgetEvent = 0 ∧
       (update_campaign_metrics pid cid data pubs s).attempted.countP isAlertEvent = 0) := by
  rw [update_attempted_of_ok pid cid data pubs s m hm hp]
  have hcid : (calculate_updated_metrics m data).campaign_id = m.campaign_id := rfl
  have hL' : dictGet s.budget_limits
      (calculate_updated_metrics m data).campaign_id = some L := hL
  unfold check_performance_alerts
  rw [check_budget_of_limit pid hL']
  rw [hcid]
  constructor
  · intro hs
    rw [if_pos hs]
    refine ⟨?_, ?_, ?_, ?_⟩
    · simp [List.countP_cons, List.countP_append, cmt_countP_budget_zero,
        isBudgetEvent]
    · simp [List.countP_cons, List.countP_append, cmt_countP_alert_zero,
        isAlertEvent]
    · simp
    · simp
  · intro hs
    rw [if_neg hs]
    constructor
    · simp [List.countP_cons, List.countP_append, cmt_countP_budget_zero,
        isBudgetEvent]
    · simp [List.countP_cons, List.countP_append, cmt_countP_alert_zero,
        isAlertEvent]

/-- C3 witness: the spec's example — budget limit 1000.0 and an update
setting spend to 1200.0 produce exactly one budget-exceeded event whose
percentage_exceeded is 20.0 and the "high" severity alert. -/
theorem c3_witness :
    dictGet sampleS.active_campaigns "c1" = some m1 ∧
      dictGet sampleS.budget_limits m1.campaign_id = some 1000 ∧
      (calculate_updated_metrics m1 dSpend).spend > 1000 ∧
      (update_campaign_metrics "p" "c1" dSpend okPubs sampleS).attempted.countP
          isBudgetEvent = 1 ∧
      Event.budgetExceeded "p" m1.campaign_id 1000
          (calculate_updated_metrics m1 dSpend).spend
          ((((calculate_updated_metrics m1 dSpend).spend - 1000) / 1000) * 100)
        ∈ (update_campaign_metrics "p" "c1" dSpend okPubs sampleS).attempted ∧
      Event.performanceAlert "p" m1.campaign_id "budget_exceeded" "high" 1000
          (calculate_updated_metrics m1 dSpend).spend
        ∈ (update_campaign_metrics "p" "c1" dSpend okPubs sampleS).attempted ∧
      (((calculate_updated_metrics m1 dSpend).spend - 1000) / 1000) * 100 = 20 := by
  have h := c3_budget_exceeded "p" "c1" dSpend okPubs sampleS m1 1000 rfl rfl
    (fun _ => ⟨true, rfl⟩)
  have hspend : (calculate_updated_metrics m1 dSpend).spend = 1200 := rfl
  have hs : (calculate_updated_metrics m1 dSpend).spend > 1000 := by
    rw [hspend]; norm_num
  obtain ⟨cb, ca, mb, ma⟩ := h.1 hs
  refine ⟨rfl, rfl, hs, cb, mb, ma, ?_⟩
  rw [hspend]
  norm_num

/-- C7: after register and update, every snapshot stored in the registry has
its derived fields consistent with its raw counters under the Metrics
Calculator formulas, and the derived-metric keys of an update payload are
ignored — changing them changes nothing about the operation's result. -/
theorem c7_registry_invariant :
    (∀ pid cid cname pl bl pubs s, registryConsistent s →
       registryConsistent (register_campaign pid cid cname pl bl pubs s).state) ∧
    (∀ pid cid data pubs s, registryConsistent s →
       registryConsistent (update_campaign_metrics pid cid data pubs s).state) ∧
    (∀ pid cid data pubs s a b c d,
       update_campaign_metrics pid cid
           { data with ctr := a, cpc := b, cpm := c, roas := d } pubs s
         = update_campaign_metrics pid cid data pubs s) := by
  refine ⟨?_, ?_, ?_⟩
  · intro pid cid cname pl bl pubs s hs cid' m' hm'
    have hac : (register_campaign pid cid cname pl bl pubs s).state.active_campaigns
        = dictSet s.active_campaigns cid (initialMetrics cid cname pl) := rfl
    rw [hac] at hm'
    by_cases hc : cid = cid'
    · subst hc
      rw [dictGet_dictSet_self] at hm'
      cases hm'
      exact consistent_initial cid cname pl
    · rw [dictGet_dictSet_ne _ _ _ _ hc] at hm'
      exact hs cid' m' hm'
  · intro pid cid data pubs s hs cid' m' hm'
    cases h : dictGet s.active_campaigns cid with
    | none =>
        rw [update_not_registered pid cid data pubs s h] at hm'
        exact hs cid' m' hm'
    | some m =>
        rw [update_state_registered pid cid data pubs s m h] at hm'
        by_cases hc : cid = cid'
        · subst hc
          rw [dictGet_dictSet_self] at hm'
          cases hm'
          exact consistent_calculate m data
        · rw [dictGet_dictSet_ne _ _ _ _ hc] at hm'
          exact hs cid' m' hm'
  · intro pid cid data pubs s a b c d
    rfl

/-- C7 witness: starting from the consistent empty registry, registration
keeps the registry consistent. -/
theorem c7_witness :
    registryConsistent emptyS ∧
      registryConsistent (register_campaign "p" "w7" "Camp W"
          CampaignPlatform.meta none okPubs emptyS).state :=
  ⟨fun _ _ h => Option.noConfusion h,
   c7_registry_invariant.1 "p" "w7" "Camp W" CampaignPlatform.meta none okPubs
     emptyS (fun _ _ h => Option.noConfusion h)⟩

/-- C10: a falsy budget_limit (0.0 or absent) at registration stores no
budget limit (and leaves previously stored limits untouched, so
re-registering without a limit does not clear an old one); updates never
modify the stored limits; and an update whose target campaign has no stored
limit hands no budget-exceeded event and no alert to the transport. -/
theorem c10_falsy_budget_limit :
    (∀ pid cid cname pl pubs s,
       (register_campaign pid cid cname pl (some 0) pubs s).state.budget_limits
         = s.budget_limits) ∧
    (∀ pid cid cname pl pubs s,
       (register_campaign pid cid cname pl none pubs s).state.budget_limits
         = s.budget_limits) ∧
    (∀ pid cid data pubs s,
       (update_campaign_metrics pid cid data pubs s).state.budget_limits
         = s.budget_limits) ∧
    (∀ pid cid data pubs s m,
       dictGet s.active_campaigns cid = some m →
       dictGet s.budget_limits m.campaign_id = none →
       (update_campaign_metrics pid cid data pubs s).attempted.countP isBudgetEvent = 0 ∧
       (update_campaign_metrics pid cid data pubs s).attempted.countP isAlertEvent = 0) := by
  refine ⟨?_, ?_, ?_, ?_⟩
  · intro pid cid cname pl pubs s
    simp [register_campaign]
  · intro pid cid cname pl pubs s
    rfl
  · intro pid cid data pubs s
    unfold update_campaign_metrics
    cases h : dictGet s.active_campaigns cid <;> rfl
  · intro pid cid data pubs s m hm hb
    have hkinds : ∀ e ∈ (update_campaign_metrics pid cid data pubs s).attempted,
        isBudgetEvent e = false ∧ isAlertEvent e = false := by
      intro e he
      have he' := update_attempted_sub pid cid data pubs s m hm e he
      rcases List.mem_cons.mp he' with rfl | he''
      · exact ⟨rfl, rfl⟩
      · unfold check_performance_alerts at he''
        have hb' : dictGet s.budget_limits
            (calculate_updated_metrics m data).campaign_id = none := hb
        rw [check_budget_of_no_limit pid hb'] at he''
        simp only [List.nil_append, List.mem_append] at he''
        rcases he'' with (h | h) | h <;>
          exact check_metric_threshold_kinds _ _ _ _ _ e h
    constructor
    · exact List.countP_eq_zero.mpr (fun e he => by simp [(hkinds e he).1])
    · exact List.countP_eq_zero.mpr (fun e he => by simp [(hkinds e he).2])

/-- C10 witness: registering "c2" with budget_limit 0.0 on a state without
limits stores nothing, and a concrete update on a campaign without a stored
limit produces no budget or alert events even with spend 1200. -/
theorem c10_witness :
    (register_campaign "p" "c2" "Camp Two" CampaignPlatform.google_ads (some 0)
        okPubs sampleNoBudgetS).state.budget_limits = sampleNoBudgetS.budget_limits ∧
      dictGet sampleNoBudgetS.active_campaigns "c1" = some m1 ∧
      dictGet sampleNoBudgetS.budget_limits m1.campaign_id = none ∧
      (update_campaign_metrics "p" "c1" dSpend okPubs
          sampleNoBudgetS).attempted.countP isBudgetEvent = 0 ∧
      (update_campaign_metrics "p" "c1" dSpend okPubs
          sampleNoBudgetS).attempted.countP isAlertEvent = 0 := by
  have h := c10_falsy_budget_limit.2.2.2 "p" "c1" dSpend okPubs sampleNoBudgetS m1
    rfl rfl
  exact ⟨c10_falsy_budget_limit.1 "p" "c2" "Camp Two" CampaignPlatform.google_ads
    okPubs sampleNoBudgetS, rfl, rfl, h.1, h.2⟩

/-- C9 witness: starting while the task runs, and stopping while none runs,
are concrete no-ops. -/
theorem c9_witness :
    taskRunning runningS.monitoring_task = true ∧
      start_monitoring runningS = (runningS, false) ∧
      taskRunning emptyS.monitoring_task = false ∧
      stop_monitoring emptyS = (emptyS, false) :=
  ⟨rfl, c9_monitoring_lifecycle.2.2.2.1 runningS rfl,
   rfl, c9_monitoring_lifecycle.2.2.2.2 emptyS rfl⟩

end ZAMC
